import Mathlib

/-!
# Verification of the emsec-payment-system payment pipeline

Shallow embedding of the payment-authorization and GPS-fraud-detection
pipeline of the repository, centred on
`src/src/controllers/paymentController.js` (`processPayment`, `scanQR`) and
`src/src/utils/gps.js` (`findNearestStop`).

Modelling conventions:
* JavaScript numbers that hold currency amounts, coordinates and distances
  are modelled as exact rationals (`ℚ`).
* JavaScript truthiness on optional numbers and strings (`0`, `""`,
  `undefined`, `null` are falsy) is modelled by `truthyQ` / `truthyS` on
  `Option ℚ` / `Option String`.
* The haversine distance `calculateDistance` of `src/src/utils/gps.js`
  computes with transcendental floating-point functions; the pipeline is
  parametric in the distance function (`Config.dist`), and so is the
  opaque `bcrypt.compare` PIN verifier (`Config.verifyPin`).
* The Supabase store is a record of association lists; the two store
  writes of the commit step (`transactions` insert, `users` balance
  update) can each succeed or fail, which the code observes only for the
  first one.  The outcome of those writes and the generated UUID are
  supplied by a `StoreOracle`.
* Notification / audit-log inserts after the commit are fire-and-forget
  side effects that no claim is about; they are not part of the state.
* The commission split of lines 273-274 is additionally modelled under
  IEEE-754 binary64 semantics (`fl64`, round to nearest, ties to even):
  the conservation analysis turns on that rounding.
-/

namespace EmSec

/-- JavaScript truthiness for an optional number: `undefined`, `null` and
`0` are falsy. -/
def truthyQ : Option ℚ → Bool
  | none => false
  | some x => x != 0

/-- JavaScript truthiness for an optional string: `undefined`, `null` and
`""` are falsy. -/
def truthyS : Option String → Bool
  | none => false
  | some s => s != ""

/-- A route stop (`routes.stops` JSONB entries); coordinates are optional
and may be absent. -/
structure Stop where
  id : String
  name : String
  latitude : Option ℚ
  longitude : Option ℚ
deriving Repr, DecidableEq

/-- `!stop.latitude || !stop.longitude` is the skip test of
`findNearestStop` (src/src/utils/gps.js line 48); a stop passes when both
coordinates are truthy. -/
def hasCoords (s : Stop) : Bool :=
  truthyQ s.latitude && truthyQ s.longitude

/-- The value `findNearestStop` returns: the stop spread together with its
`distance_meters`. -/
structure NearestStop where
  stop : Stop
  distance_meters : ℚ
deriving Repr, DecidableEq

/-- The loop of `findNearestStop` (src/src/utils/gps.js lines 42-66).
The accumulator is `nearest`; in the source `minDistance` starts at
`Infinity` and is `nearest.distance_meters` as soon as `nearest` is not
`null`, so the pair is carried as one `Option NearestStop`.  A stop
replaces the accumulator only on a strictly smaller distance
(`distance < minDistance`), so the first stop attaining the minimum wins. -/
def findNearestGo (d : ℚ → ℚ → ℚ → ℚ → ℚ) (lat lon : ℚ) :
    List Stop → Option NearestStop → Option NearestStop
  | [], nearest => nearest
  | s :: rest, nearest =>
    if hasCoords s then
      let distance := d lat lon (s.latitude.getD 0) (s.longitude.getD 0)
      match nearest with
      | none => findNearestGo d lat lon rest (some ⟨s, distance⟩)
      | some m =>
        if distance < m.distance_meters then
          findNearestGo d lat lon rest (some ⟨s, distance⟩)
        else
          findNearestGo d lat lon rest (some m)
    else
      findNearestGo d lat lon rest nearest

/-- `findNearestStop(latitude, longitude, stops)` of src/src/utils/gps.js,
parametric in the distance function `d` standing for `calculateDistance`.
The `!stops || stops.length === 0` early return is the `[]` case of the
loop. -/
def findNearestStop (d : ℚ → ℚ → ℚ → ℚ → ℚ) (lat lon : ℚ)
    (stops : List Stop) : Option NearestStop :=
  findNearestGo d lat lon stops none

/-- An account row of the `users` table (the fields `processPayment`
selects: `balance, pin_hash, status`). -/
structure UserRec where
  balance : ℚ
  pin_hash : String
  status : String
deriving Repr, DecidableEq

/-- The merchant fields `processPayment` selects through the device join. -/
structure MerchantInfo where
  business_name : String
  matatu_plate : String
  commission_rate : ℚ
deriving Repr, DecidableEq

/-- A `devices` row joined with its merchant, as selected by
`processPayment`. -/
structure DeviceRec where
  merchant_id : String
  merchants : MerchantInfo
deriving Repr, DecidableEq

/-- A `routes` row (only the `stops` column is read by `processPayment`). -/
structure RouteRec where
  stops : List Stop
deriving Repr, DecidableEq

/-- A `transactions` row as inserted by `processPayment`
(src/src/controllers/paymentController.js lines 336-360); timestamps are
not modelled. -/
structure Txn where
  transaction_id : String
  user_id : String
  merchant_id : String
  device_id : String
  amount : ℚ
  route_id : Option String
  origin_stop : Option String
  destination_stop : Option String
  status : String
  merchant_commission : ℚ
  net_amount : ℚ
  reference_code : String
  gps_boarding_latitude : Option ℚ
  gps_boarding_longitude : Option ℚ
  auto_detected_origin : Bool
  nearest_stop_distance_meters : Option ℚ
  user_balance_before : ℚ
  user_balance_after : ℚ
deriving Repr, DecidableEq

/-- A `fraud_alerts` row as inserted on the rejection path
(src/src/controllers/paymentController.js lines 306-318); the `details`
JSON snapshot is flattened into its four fields. -/
structure FraudAlert where
  user_id : String
  transaction_id : Option String
  alert_type : String
  risk_score : ℕ
  alert_level : String
  details_gps_latitude : ℚ
  details_gps_longitude : ℚ
  details_selected_origin : String
  details_distance_meters : ℚ
deriving Repr, DecidableEq

/-- The persistent store: the tables `processPayment` touches, keyed
association lists for the row lookups by primary key. -/
structure DB where
  users : List (String × UserRec)
  devices : List (String × DeviceRec)
  routes : List (String × RouteRec)
  transactions : List Txn
  fraud_alerts : List FraudAlert
deriving Repr, DecidableEq

/-- The request body of `POST /payments/process` together with the
authenticated `req.user.user_id`. -/
structure PaymentRequest where
  user_id : String
  device_id : String
  route_id : Option String
  origin_stop : Option String
  destination_stop : Option String
  amount : ℚ
  pin : String
  idempotency_key : String
  gps_latitude : Option ℚ
  gps_longitude : Option ℚ
deriving Repr, DecidableEq

/-- The `existingTxn` projection returned on an idempotent replay
(`select('transaction_id, status, amount')`, line 212). -/
structure ExistingTxnView where
  transaction_id : String
  status : String
  amount : ℚ
deriving Repr, DecidableEq

/-- The response payload of a fresh successful payment
(src/src/controllers/paymentController.js lines 397-409); `timestamp` is
not modelled. -/
structure PaymentReceipt where
  transaction_id : String
  status : String
  amount : ℚ
  merchant_name : String
  merchant_plate : String
  origin : Option String
  destination : Option String
  balance_before : ℚ
  balance_after : ℚ
  reference : String
deriving Repr, DecidableEq

/-- The two shapes of `data` a success response can carry. -/
inductive RespBody where
  | existing (v : ExistingTxnView)
  | receipt (r : PaymentReceipt)
deriving Repr, DecidableEq

/-- A `sendSuccess` / `sendError` HTTP response (src/unnamed/part_004):
`success` carries `data`, `message` and the status code, `error` carries
the message, the error code and the status code. -/
inductive PaymentResponse where
  | success (body : RespBody) (message : String) (statusCode : ℕ)
  | error (message : String) (code : String) (statusCode : ℕ)
deriving Repr, DecidableEq

/-- Configuration and the two opaque capabilities the controller calls:
`GPS_MAX_DISTANCE_METERS || 500`, `calculateDistance` (haversine over
floating-point trigonometry, kept parametric) and `bcrypt.compare`. -/
structure Config where
  maxDistanceMeters : ℚ
  dist : ℚ → ℚ → ℚ → ℚ → ℚ
  verifyPin : String → String → Bool

/-- Per-request nondeterminism of the store and of `uuidv4()`: whether the
`transactions` insert succeeds, whether the `users` balance update
succeeds (the code never checks this one), and the fresh transaction id. -/
structure StoreOracle where
  txnInsertOk : Bool
  balanceUpdateOk : Bool
  freshTxnId : String
deriving Repr, DecidableEq

/-- The idempotency lookup predicate: `.eq('reference_code',
idempotency_key)` on `transactions`. -/
def byReference (key : String) (t : Txn) : Bool :=
  t.reference_code == key

/-- The claimed-origin lookup: `stops.find(s => s.id === origin_stop)`. -/
def byStopId (sid : String) (s : Stop) : Bool :=
  s.id == sid

/-- The `users` balance update
(`.update({ balance }).eq('user_id', user_id)`). -/
def setBalance (users : List (String × UserRec)) (uid : String)
    (newBal : ℚ) : List (String × UserRec) :=
  users.map (fun p =>
    match p.1 == uid with
    | true => (p.1, { p.2 with balance := newBal })
    | false => p)

/-- Outcome of the GPS fraud-detection block. -/
inductive FraudOutcome where
  | rejected (alert : FraudAlert)
  | passed (nearest_stop_distance_meters : Option ℚ)
deriving Repr, DecidableEq

/-- The GPS fraud-detection block of `processPayment`
(src/src/controllers/paymentController.js lines 276-329).
`let nearest_stop_distance_meters = null` survives as `passed none`
whenever the `if (route_id && origin_stop && gps_latitude &&
gps_longitude)` guard, the route lookup, the stop lookup or the
`selectedStop.latitude && selectedStop.longitude` test falls through. -/
def gpsFraudCheck (cfg : Config) (db : DB) (q : PaymentRequest) :
    FraudOutcome :=
  if truthyS q.route_id && truthyS q.origin_stop &&
      truthyQ q.gps_latitude && truthyQ q.gps_longitude then
    match db.routes.lookup (q.route_id.getD "") with
    | none => .passed none
    | some route =>
      match route.stops.find? (byStopId (q.origin_stop.getD "")) with
      | none => .passed none
      | some selectedStop =>
        if truthyQ selectedStop.latitude && truthyQ selectedStop.longitude then
          let distance := cfg.dist (q.gps_latitude.getD 0) (q.gps_longitude.getD 0)
            (selectedStop.latitude.getD 0) (selectedStop.longitude.getD 0)
          if distance > cfg.maxDistanceMeters then
            .rejected
              { user_id := q.user_id
                transaction_id := none
                alert_type := "suspicious_origin"
                risk_score := 75
                alert_level := "high"
                details_gps_latitude := q.gps_latitude.getD 0
                details_gps_longitude := q.gps_longitude.getD 0
                details_selected_origin := q.origin_stop.getD ""
                details_distance_meters := distance }
          else
            .passed (some distance)
        else
          .passed none
  else
    .passed none

/-- The `transactions` row built at the commit step
(src/src/controllers/paymentController.js lines 336-360): `x || null`
coalescing on the optional fields, `status: 'success'`,
`auto_detected_origin` from the hardcoded `let auto_detected_origin =
true` of line 277. -/
def mkTxn (q : PaymentRequest) (device : DeviceRec) (user : UserRec)
    (txnId : String) (nd : Option ℚ) : Txn :=
  { transaction_id := txnId
    user_id := q.user_id
    merchant_id := device.merchant_id
    device_id := q.device_id
    amount := q.amount
    route_id := if truthyS q.route_id then q.route_id else none
    origin_stop := if truthyS q.origin_stop then q.origin_stop else none
    destination_stop := if truthyS q.destination_stop then q.destination_stop else none
    status := "success"
    merchant_commission := q.amount * device.merchants.commission_rate
    net_amount := q.amount - q.amount * device.merchants.commission_rate
    reference_code := q.idempotency_key
    gps_boarding_latitude := if truthyQ q.gps_latitude then q.gps_latitude else none
    gps_boarding_longitude := if truthyQ q.gps_longitude then q.gps_longitude else none
    auto_detected_origin := true
    nearest_stop_distance_meters := nd
    user_balance_before := user.balance
    user_balance_after := user.balance - q.amount }

/-- The success payload of a fresh payment
(src/src/controllers/paymentController.js lines 397-409). -/
def mkReceipt (q : PaymentRequest) (device : DeviceRec) (user : UserRec)
    (txnId : String) : PaymentReceipt :=
  { transaction_id := txnId
    status := "success"
    amount := q.amount
    merchant_name := device.merchants.business_name
    merchant_plate := device.merchants.matatu_plate
    origin := q.origin_stop
    destination := q.destination_stop
    balance_before := user.balance
    balance_after := user.balance - q.amount
    reference := q.idempotency_key }

/-- `processPayment` of src/src/controllers/paymentController.js
(lines 191-423), step for step:
idempotency lookup by `reference_code`; user load (`USER_NOT_FOUND`);
status check (`ACCOUNT_SUSPENDED`); `bcrypt.compare` (`INVALID_PIN`);
balance check (`INSUFFICIENT_BALANCE`); device load (`INVALID_QR`);
commission split; GPS fraud block (`ORIGIN_MISMATCH` plus one
`fraud_alerts` insert on rejection); `transactions` insert (a failed
insert is a 500 with no row); `users` balance update whose error the
code ignores; success response. -/
def processPayment (cfg : Config) (ora : StoreOracle) (db : DB)
    (q : PaymentRequest) : PaymentResponse × DB :=
  match db.transactions.find? (byReference q.idempotency_key) with
  | some existingTxn =>
    (.success (.existing ⟨existingTxn.transaction_id, existingTxn.status, existingTxn.amount⟩)
      "Transaction already processed" 200, db)
  | none =>
    match db.users.lookup q.user_id with
    | none => (.error "User not found" "USER_NOT_FOUND" 404, db)
    | some user =>
      if user.status != "active" then
        (.error "Account is not active" "ACCOUNT_SUSPENDED" 403, db)
      else if !(cfg.verifyPin q.pin user.pin_hash) then
        (.error "Incorrect PIN" "INVALID_PIN" 401, db)
      else if user.balance < q.amount then
        (.error "Insufficient balance" "INSUFFICIENT_BALANCE" 400, db)
      else
        match db.devices.lookup q.device_id with
        | none => (.error "Invalid device" "INVALID_QR" 404, db)
        | some device =>
          match gpsFraudCheck cfg db q with
          | .rejected alert =>
            (.error "Origin location mismatch detected. Please verify your boarding point."
              "ORIGIN_MISMATCH" 400,
              { db with fraud_alerts := db.fraud_alerts ++ [alert] })
          | .passed nd =>
            if ora.txnInsertOk then
              let txn := mkTxn q device user ora.freshTxnId nd
              let db1 : DB := { db with transactions := db.transactions ++ [txn] }
              let db2 : DB :=
                if ora.balanceUpdateOk then
                  { db1 with users := setBalance db1.users q.user_id (user.balance - q.amount) }
                else db1
              (.success (.receipt (mkReceipt q device user ora.freshTxnId))
                "Payment successful" 201, db2)
            else
              (.error "Payment failed" "SERVER_ERROR" 500, db)

/-- The destination projection of `scanQR`
(src/src/controllers/paymentController.js lines 133-136): each downstream
stop is mapped to `{id, name}`. -/
def stopView (s : Stop) : String × String :=
  (s.id, s.name)

/-- `stops.filter((s, idx) => idx > originIndex)` of `scanQR` line 132:
filtering by element index against an `Int` threshold (`findIndex` yields
`-1` when the origin is absent). -/
def filterIdxGt (idx thr : Int) : List Stop → List Stop
  | [] => []
  | s :: rest =>
    if idx > thr then s :: filterIdxGt (idx + 1) thr rest
    else filterIdxGt (idx + 1) thr rest

/-- The available-destinations computation of `scanQR`
(src/src/controllers/paymentController.js lines 129-136):
`originIndex = stops.findIndex(s => s.id === originStopId)` (which is `-1`
when not found), then the stops at indices strictly greater than
`originIndex`, projected to `{id, name}`. -/
def downstreamDestinations (stops : List Stop) (originStopId : String) :
    List (String × String) :=
  let originIndex : Int :=
    match stops.findIdx? (byStopId originStopId) with
    | some i => (i : Int)
    | none => -1
  (filterIdxGt 0 originIndex stops).map stopView

/-- The balance gate and decrement of one charge, as `processPayment`
performs them (src/src/controllers/paymentController.js lines 243 and
334): fail when `balance < amount`, otherwise the new balance is
`balance - amount`. -/
def ledgerCharge (balance amount : ℚ) : Option ℚ :=
  if balance < amount then none else some (balance - amount)

/-- A sequence of charge attempts against one account: returns the final
balance together with the sum of the amounts of the successful charges
(failed attempts leave the balance unchanged). -/
def chargeSeq (b : ℚ) : List ℚ → ℚ × ℚ
  | [] => (b, 0)
  | a :: rest =>
    match ledgerCharge b a with
    | none => chargeSeq b rest
    | some b2 =>
      let r := chargeSeq b2 rest
      (r.1, a + r.2)

/-! ## Concrete fixtures used by the witnesses and counterexamples -/

/-- Demo account: balance 100, PIN hash "1234", active. -/
def demoUser : UserRec :=
  { balance := 100, pin_hash := "1234", status := "active" }

/-- Demo merchant with commission rate 0.05 (the rational 1/20, written
through the normalized-form constructor so that kernel reduction works). -/
def demoMerchant : MerchantInfo :=
  { business_name := "Demo Shop", matatu_plate := "KAA 001A",
    commission_rate := ⟨1, 20, by norm_num, Nat.coprime_one_left 20⟩ }

/-- Demo device owned by merchant `m1`. -/
def demoDevice : DeviceRec :=
  { merchant_id := "m1", merchants := demoMerchant }

/-- A stop with coordinates. -/
def demoStopA : Stop :=
  { id := "s1", name := "Alpha", latitude := some 1, longitude := some 36 }

/-- A second stop with coordinates. -/
def demoStopB : Stop :=
  { id := "s2", name := "Beta", latitude := some 2, longitude := some 37 }

/-- A stop without coordinates. -/
def demoStopC : Stop :=
  { id := "s3", name := "Gamma", latitude := none, longitude := none }

/-- Demo route `r1` with stops `s1`, `s2`, `s3`. -/
def demoRoute : RouteRec :=
  { stops := [demoStopA, demoStopB, demoStopC] }

/-- Demo store state: one user, one device, one route, empty transaction
and alert tables. -/
def demoDB : DB :=
  { users := [("u1", demoUser)]
    devices := [("d1", demoDevice)]
    routes := [("r1", demoRoute)]
    transactions := []
    fraud_alerts := [] }

/-- Demo configuration: threshold 500 m, every distance evaluates to `dv`,
PIN verification is string equality (standing in for the opaque
`bcrypt.compare`). -/
def demoCfg (dv : ℚ) : Config :=
  { maxDistanceMeters := 500
    dist := fun _ _ _ _ => dv
    verifyPin := fun p h => p == h }

/-- Demo oracle: both store writes succeed, fresh id `t1`. -/
def demoOracle : StoreOracle :=
  { txnInsertOk := true, balanceUpdateOk := true, freshTxnId := "t1" }

/-- Demo request: user `u1` pays 50 through device `d1` with a manually
claimed origin `s1` on route `r1` and a GPS fix. -/
def demoReq : PaymentRequest :=
  { user_id := "u1"
    device_id := "d1"
    route_id := some "r1"
    origin_stop := some "s1"
    destination_stop := some "s2"
    amount := 50
    pin := "1234"
    idempotency_key := "R1"
    gps_latitude := some 1
    gps_longitude := some 36 }

/-- Demo request without any GPS/route data (fraud block skipped). -/
def demoReqNoGps : PaymentRequest :=
  { demoReq with route_id := none, origin_stop := none,
                 gps_latitude := none, gps_longitude := none }

/-! ## Reduction lemmas for `processPayment` -/

/-- Replay: when the idempotency lookup finds a row, the call returns its
projection and touches nothing. -/
theorem processPayment_replay (cfg : Config) (ora : StoreOracle) (db : DB)
    (q : PaymentRequest) (t : Txn)
    (href : db.transactions.find? (byReference q.idempotency_key) = some t) :
    processPayment cfg ora db q =
      (.success (.existing ⟨t.transaction_id, t.status, t.amount⟩)
        "Transaction already processed" 200, db) := by
  unfold processPayment
  rw [href]

/-- Rejection: under the fresh-payment path hypotheses, a `rejected`
fraud outcome yields the `ORIGIN_MISMATCH` error and appends exactly the
alert, leaving every other table untouched. -/
theorem processPayment_rejected (cfg : Config) (ora : StoreOracle) (db : DB)
    (q : PaymentRequest) (u : UserRec) (dev : DeviceRec) (alert : FraudAlert)
    (href : db.transactions.find? (byReference q.idempotency_key) = none)
    (hu : db.users.lookup q.user_id = some u)
    (hact : u.status = "active")
    (hpin : cfg.verifyPin q.pin u.pin_hash = true)
    (hbal : ¬ u.balance < q.amount)
    (hdev : db.devices.lookup q.device_id = some dev)
    (hfraud : gpsFraudCheck cfg db q = .rejected alert) :
    processPayment cfg ora db q =
      (.error "Origin location mismatch detected. Please verify your boarding point."
        "ORIGIN_MISMATCH" 400,
        { db with fraud_alerts := db.fraud_alerts ++ [alert] }) := by
  simp only [processPayment, href, hu, hact, hpin, hdev, hfraud]
  simp [if_neg hbal]

/-- The state after a successful commit: the new row is appended and, when
the (unchecked) balance update succeeds, the account balance is set to
`balance - amount`. -/
def commitDB (db : DB) (q : PaymentRequest) (u : UserRec) (dev : DeviceRec)
    (ora : StoreOracle) (nd : Option ℚ) : DB :=
  let txn := mkTxn q dev u ora.freshTxnId nd
  let db1 : DB := { db with transactions := db.transactions ++ [txn] }
  if ora.balanceUpdateOk then
    { db1 with users := setBalance db1.users q.user_id (u.balance - q.amount) }
  else db1

/-- Commit: under the fresh-payment path hypotheses, a `passed` fraud
outcome with a succeeding insert yields the 201 receipt and the
`commitDB` state. -/
theorem processPayment_commit (cfg : Config) (ora : StoreOracle) (db : DB)
    (q : PaymentRequest) (u : UserRec) (dev : DeviceRec) (nd : Option ℚ)
    (href : db.transactions.find? (byReference q.idempotency_key) = none)
    (hu : db.users.lookup q.user_id = some u)
    (hact : u.status = "active")
    (hpin : cfg.verifyPin q.pin u.pin_hash = true)
    (hbal : ¬ u.balance < q.amount)
    (hdev : db.devices.lookup q.device_id = some dev)
    (hfraud : gpsFraudCheck cfg db q = .passed nd)
    (hins : ora.txnInsertOk = true) :
    processPayment cfg ora db q =
      (.success (.receipt (mkReceipt q dev u ora.freshTxnId))
        "Payment successful" 201, commitDB db q u dev ora nd) := by
  simp only [processPayment, commitDB, href, hu, hact, hpin, hdev, hfraud, hins]
  simp [if_neg hbal]

/-- Insufficient balance: under the earlier path hypotheses, an amount
above the balance is refused with `INSUFFICIENT_BALANCE` and the state is
returned unchanged. -/
theorem processPayment_insufficient (cfg : Config) (ora : StoreOracle) (db : DB)
    (q : PaymentRequest) (u : UserRec)
    (href : db.transactions.find? (byReference q.idempotency_key) = none)
    (hu : db.users.lookup q.user_id = some u)
    (hact : u.status = "active")
    (hpin : cfg.verifyPin q.pin u.pin_hash = true)
    (hbal : u.balance < q.amount) :
    processPayment cfg ora db q =
      (.error "Insufficient balance" "INSUFFICIENT_BALANCE" 400, db) := by
  simp only [processPayment, href, hu, hact, hpin]
  simp [if_pos hbal]

/-! ## Helper lemmas -/

/-- `find?` skips a prefix in which it finds nothing. -/
theorem find?_append_of_none {α : Type} (p : α → Bool) (l1 l2 : List α)
    (h : l1.find? p = none) : (l1 ++ l2).find? p = l2.find? p := by
  induction l1 with
  | nil => simp
  | cons a t ih =>
    rw [List.cons_append]
    cases hpa : p a with
    | true =>
      rw [List.find?_cons_of_pos _ hpa] at h
      exact absurd h (by simp)
    | false =>
      rw [List.find?_cons_of_neg _ (by simp [hpa])] at h
      rw [List.find?_cons_of_neg _ (by simp [hpa])]
      exact ih h

/-- Looking up the account that `setBalance` touched returns it with the
new balance. -/
theorem lookup_setBalance (l : List (String × UserRec)) (uid : String)
    (nb : ℚ) :
    (setBalance l uid nb).lookup uid =
      (l.lookup uid).map (fun u => { u with balance := nb }) := by
  induction l with
  | nil => rfl
  | cons p rest ih =>
    obtain ⟨k, v⟩ := p
    by_cases h : k = uid
    · subst h
      simp only [setBalance, List.map_cons, beq_self_eq_true, if_true,
        List.lookup, Option.map_some]
      rfl
    · have h1 : (k == uid) = false := beq_eq_false_iff_ne.mpr h
      have h2 : (uid == k) = false := beq_eq_false_iff_ne.mpr (Ne.symm h)
      simp only [setBalance, List.map_cons, h1]
      simp only [List.lookup, h2]
      simpa [setBalance] using ih

/-- The commit always appends exactly the one new row. -/
theorem commitDB_transactions (db : DB) (q : PaymentRequest) (u : UserRec)
    (dev : DeviceRec) (ora : StoreOracle) (nd : Option ℚ) :
    (commitDB db q u dev ora nd).transactions =
      db.transactions ++ [mkTxn q dev u ora.freshTxnId nd] := by
  unfold commitDB
  by_cases h : ora.balanceUpdateOk <;> simp [h]

/-- The commit never touches the fraud-alert table. -/
theorem commitDB_fraud_alerts (db : DB) (q : PaymentRequest) (u : UserRec)
    (dev : DeviceRec) (ora : StoreOracle) (nd : Option ℚ) :
    (commitDB db q u dev ora nd).fraud_alerts = db.fraud_alerts := by
  unfold commitDB
  by_cases h : ora.balanceUpdateOk <;> simp [h]

/-- The accounts after the commit: decremented when the (unchecked)
balance update succeeded, untouched when it failed. -/
theorem commitDB_users (db : DB) (q : PaymentRequest) (u : UserRec)
    (dev : DeviceRec) (ora : StoreOracle) (nd : Option ℚ) :
    (commitDB db q u dev ora nd).users =
      if ora.balanceUpdateOk then
        setBalance db.users q.user_id (u.balance - q.amount)
      else db.users := by
  unfold commitDB
  by_cases h : ora.balanceUpdateOk <;> simp [h]

/-- The fraud block on the evaluation path: all four request fields
truthy, route and claimed stop found, stop coordinates truthy.  The
outcome is a strict threshold comparison of the computed distance. -/
theorem gpsFraudCheck_eval (cfg : Config) (db : DB) (q : PaymentRequest)
    (route : RouteRec) (stop : Stop)
    (hguard : (truthyS q.route_id && truthyS q.origin_stop &&
      truthyQ q.gps_latitude && truthyQ q.gps_longitude) = true)
    (hroute : db.routes.lookup (q.route_id.getD "") = some route)
    (hstop : route.stops.find? (byStopId (q.origin_stop.getD "")) = some stop)
    (hcoords : (truthyQ stop.latitude && truthyQ stop.longitude) = true) :
    gpsFraudCheck cfg db q =
      (if cfg.dist (q.gps_latitude.getD 0) (q.gps_longitude.getD 0)
          (stop.latitude.getD 0) (stop.longitude.getD 0) > cfg.maxDistanceMeters then
        .rejected
          { user_id := q.user_id
            transaction_id := none
            alert_type := "suspicious_origin"
            risk_score := 75
            alert_level := "high"
            details_gps_latitude := q.gps_latitude.getD 0
            details_gps_longitude := q.gps_longitude.getD 0
            details_selected_origin := q.origin_stop.getD ""
            details_distance_meters := cfg.dist (q.gps_latitude.getD 0)
              (q.gps_longitude.getD 0) (stop.latitude.getD 0) (stop.longitude.getD 0) }
      else
        .passed (some (cfg.dist (q.gps_latitude.getD 0) (q.gps_longitude.getD 0)
          (stop.latitude.getD 0) (stop.longitude.getD 0)))) := by
  simp only [gpsFraudCheck, hguard, hroute, hstop, hcoords, if_true]

/-- The fraud block is skipped whenever the request guard is falsy. -/
theorem gpsFraudCheck_skipped_guard (cfg : Config) (db : DB)
    (q : PaymentRequest)
    (hguard : (truthyS q.route_id && truthyS q.origin_stop &&
      truthyQ q.gps_latitude && truthyQ q.gps_longitude) = false) :
    gpsFraudCheck cfg db q = .passed none := by
  simp only [gpsFraudCheck, hguard, Bool.false_eq_true, if_false]

/-- The fraud block is also skipped when the claimed stop carries falsy
coordinates. -/
theorem gpsFraudCheck_skipped_stop (cfg : Config) (db : DB)
    (q : PaymentRequest) (route : RouteRec) (stop : Stop)
    (hguard : (truthyS q.route_id && truthyS q.origin_stop &&
      truthyQ q.gps_latitude && truthyQ q.gps_longitude) = true)
    (hroute : db.routes.lookup (q.route_id.getD "") = some route)
    (hstop : route.stops.find? (byStopId (q.origin_stop.getD "")) = some stop)
    (hcoords : (truthyQ stop.latitude && truthyQ stop.longitude) = false) :
    gpsFraudCheck cfg db q = .passed none := by
  simp only [gpsFraudCheck, hguard, hroute, hstop, hcoords, if_true,
    Bool.false_eq_true, if_false]

/-- Fold specification of `chargeSeq`: starting from a non-negative
balance, the final balance is the initial balance minus the sum of the
successful amounts, and it never goes negative. -/
theorem chargeSeq_spec (amts : List ℚ) : ∀ b : ℚ, 0 ≤ b →
    (chargeSeq b amts).1 = b - (chargeSeq b amts).2 ∧
      0 ≤ (chargeSeq b amts).1 := by
  induction amts with
  | nil => intro b hb; simpa [chargeSeq] using hb
  | cons a rest ih =>
    intro b hb
    by_cases h : b < a
    · simpa [chargeSeq, ledgerCharge, h] using ih b hb
    · have hb2 : 0 ≤ b - a := by
        have := not_lt.mp h
        linarith
      obtain ⟨h1, h2⟩ := ih (b - a) hb2
      constructor
      · simp only [chargeSeq, ledgerCharge, if_neg h]
        rw [h1]
        ring
      · simpa [chargeSeq, ledgerCharge, if_neg h] using h2

/-- `filterIdxGt` keeps exactly the elements whose index is above the
threshold: it is a `drop`. -/
theorem filterIdxGt_eq_drop (l : List Stop) : ∀ idx thr : Int,
    filterIdxGt idx thr l = l.drop (thr + 1 - idx).toNat := by
  induction l with
  | nil => intro idx thr; simp [filterIdxGt]
  | cons s rest ih =>
    intro idx thr
    by_cases h : idx > thr
    · have h0 : (thr + 1 - idx).toNat = 0 := by omega
      have h1 : (thr + 1 - (idx + 1)).toNat = 0 := by omega
      simp only [filterIdxGt, if_pos h, ih (idx + 1) thr, h0, h1, List.drop_zero]
    · have h2 : (thr + 1 - idx).toNat = (thr + 1 - (idx + 1)).toNat + 1 := by omega
      simp only [filterIdxGt, if_neg h, ih (idx + 1) thr, h2, List.drop_succ_cons]

/-- The distance `findNearestStop` computes for a stop. -/
def stopDist (d : ℚ → ℚ → ℚ → ℚ → ℚ) (lat lon : ℚ) (s : Stop) : ℚ :=
  d lat lon (s.latitude.getD 0) (s.longitude.getD 0)

/-- Loop invariant of `findNearestGo`: the result is `none` only when the
accumulator was `none` and no remaining stop carries coordinates; a `some`
result is a lower bound of the remaining coordinate-carrying stops; and it
is either the untouched accumulator or the first remaining stop that
strictly beats the accumulator and every coordinate-carrying stop before
it. -/
theorem findNearestGo_spec (d : ℚ → ℚ → ℚ → ℚ → ℚ) (lat lon : ℚ)
    (rest : List Stop) : ∀ acc : Option NearestStop,
    (findNearestGo d lat lon rest acc = none ↔
      (acc = none ∧ ∀ s ∈ rest, hasCoords s = false))
  ∧ (∀ n, findNearestGo d lat lon rest acc = some n →
      ∀ s ∈ rest, hasCoords s = true → n.distance_meters ≤ stopDist d lat lon s)
  ∧ (∀ n, findNearestGo d lat lon rest acc = some n →
      (acc = some n ∨
        ∃ l1 l2, rest = l1 ++ n.stop :: l2 ∧ hasCoords n.stop = true
          ∧ n.distance_meters = stopDist d lat lon n.stop
          ∧ (∀ m, acc = some m → n.distance_meters < m.distance_meters)
          ∧ (∀ s ∈ l1, hasCoords s = true →
              n.distance_meters < stopDist d lat lon s))) := by
  induction rest with
  | nil =>
    intro acc
    refine ⟨by simp [findNearestGo], ?_, ?_⟩
    · intro n _ s hs
      simp at hs
    · intro n h
      exact Or.inl h
  | cons s t ih =>
    intro acc
    cases hc : hasCoords s with
    | false =>
      have hgo : findNearestGo d lat lon (s :: t) acc =
          findNearestGo d lat lon t acc := by
        simp [findNearestGo, hc]
      obtain ⟨ih1, ih2, ih3⟩ := ih acc
      refine ⟨?_, ?_, ?_⟩
      · rw [hgo, ih1]
        constructor
        · rintro ⟨ha, hall⟩
          refine ⟨ha, ?_⟩
          intro x hx
          rcases List.mem_cons.mp hx with h | h
          · subst h; exact hc
          · exact hall x h
        · rintro ⟨ha, hall⟩
          exact ⟨ha, fun x hx => hall x (List.mem_cons_of_mem s hx)⟩
      · intro n hn x hx hcx
        rw [hgo] at hn
        rcases List.mem_cons.mp hx with h | h
        · subst h; rw [hcx] at hc; cases hc
        · exact ih2 n hn x h hcx
      · intro n hn
        rw [hgo] at hn
        rcases ih3 n hn with h | ⟨l1, l2, ht, h1, h2, h3, h4⟩
        · exact Or.inl h
        · refine Or.inr ⟨s :: l1, l2, by rw [ht, List.cons_append], h1, h2, h3, ?_⟩
          intro x hx hcx
          rcases List.mem_cons.mp hx with h | h
          · subst h; rw [hcx] at hc; cases hc
          · exact h4 x h hcx
    | true =>
      cases acc with
      | none =>
        have hgo : findNearestGo d lat lon (s :: t) none =
            findNearestGo d lat lon t (some ⟨s, stopDist d lat lon s⟩) := by
          simp [findNearestGo, hc, stopDist]
        obtain ⟨ih1, ih2, ih3⟩ := ih (some ⟨s, stopDist d lat lon s⟩)
        refine ⟨?_, ?_, ?_⟩
        · rw [hgo]
          constructor
          · intro h
            rcases ih1.mp h with ⟨ha, _⟩
            cases ha
          · rintro ⟨_, hall⟩
            have := hall s (List.mem_cons_self s t)
            rw [hc] at this
            cases this
        · intro n hn x hx hcx
          rw [hgo] at hn
          rcases List.mem_cons.mp hx with hxs | hxt
          · rw [hxs]
            rcases ih3 n hn with hacc | ⟨l1, l2, ht, hc1, hd1, hlt1, _⟩
            · injection hacc with hacc
              rw [← hacc]
            · exact le_of_lt (hlt1 ⟨s, stopDist d lat lon s⟩ rfl)
          · exact ih2 n hn x hxt hcx
        · intro n hn
          rw [hgo] at hn
          right
          rcases ih3 n hn with hacc | ⟨l1, l2, ht, hc1, hd1, hlt1, hfst1⟩
          · injection hacc with hacc
            refine ⟨[], t, ?_, ?_, ?_, ?_, ?_⟩
            · rw [← hacc]; rfl
            · rw [← hacc]; exact hc
            · rw [← hacc]
            · intro m2 hm2; cases hm2
            · intro x hx; simp at hx
          · refine ⟨s :: l1, l2, by rw [ht, List.cons_append], hc1, hd1, ?_, ?_⟩
            · intro m2 hm2; cases hm2
            · intro x hx hcx
              rcases List.mem_cons.mp hx with hxs | hxl
              · rw [hxs]
                exact hlt1 ⟨s, stopDist d lat lon s⟩ rfl
              · exact hfst1 x hxl hcx
      | some m =>
        by_cases hlt : d lat lon (s.latitude.getD 0) (s.longitude.getD 0) <
            m.distance_meters
        · have hgo : findNearestGo d lat lon (s :: t) (some m) =
              findNearestGo d lat lon t (some ⟨s, stopDist d lat lon s⟩) := by
            simp [findNearestGo, hc, hlt, stopDist]
          obtain ⟨ih1, ih2, ih3⟩ := ih (some ⟨s, stopDist d lat lon s⟩)
          have hlt2 : stopDist d lat lon s < m.distance_meters := hlt
          refine ⟨?_, ?_, ?_⟩
          · rw [hgo]
            constructor
            · intro h
              rcases ih1.mp h with ⟨ha, _⟩
              cases ha
            · rintro ⟨ha, _⟩
              cases ha
          · intro n hn x hx hcx
            rw [hgo] at hn
            rcases List.mem_cons.mp hx with hxs | hxt
            · rw [hxs]
              rcases ih3 n hn with hacc | ⟨l1, l2, ht, hc1, hd1, hlt1, _⟩
              · injection hacc with hacc
                rw [← hacc]
              · exact le_of_lt (hlt1 ⟨s, stopDist d lat lon s⟩ rfl)
            · exact ih2 n hn x hxt hcx
          · intro n hn
            rw [hgo] at hn
            right
            rcases ih3 n hn with hacc | ⟨l1, l2, ht, hc1, hd1, hlt1, hfst1⟩
            · injection hacc with hacc
              refine ⟨[], t, ?_, ?_, ?_, ?_, ?_⟩
              · rw [← hacc]; rfl
              · rw [← hacc]; exact hc
              · rw [← hacc]
              · intro m2 hm2
                injection hm2 with hm2
                rw [← hacc, ← hm2]
                exact hlt2
              · intro x hx; simp at hx
            · refine ⟨s :: l1, l2, by rw [ht, List.cons_append], hc1, hd1, ?_, ?_⟩
              · intro m2 hm2
                injection hm2 with hm2
                rw [← hm2]
                exact lt_trans (hlt1 ⟨s, stopDist d lat lon s⟩ rfl) hlt2
              · intro x hx hcx
                rcases List.mem_cons.mp hx with hxs | hxl
                · rw [hxs]
                  exact hlt1 ⟨s, stopDist d lat lon s⟩ rfl
                · exact hfst1 x hxl hcx
        · have hgo : findNearestGo d lat lon (s :: t) (some m) =
              findNearestGo d lat lon t (some m) := by
            simp [findNearestGo, hc, hlt]
          obtain ⟨ih1, ih2, ih3⟩ := ih (some m)
          have hge : m.distance_meters ≤ stopDist d lat lon s := not_lt.mp hlt
          refine ⟨?_, ?_, ?_⟩
          · rw [hgo]
            constructor
            · intro h
              rcases ih1.mp h with ⟨ha, _⟩
              cases ha
            · rintro ⟨ha, _⟩
              cases ha
          · intro n hn x hx hcx
            rw [hgo] at hn
            rcases List.mem_cons.mp hx with hxs | hxt
            · rw [hxs]
              rcases ih3 n hn with hacc | ⟨l1, l2, ht, hc1, hd1, hlt1, _⟩
              · injection hacc with hacc
                rw [← hacc]
                exact hge
              · exact le_of_lt (lt_of_lt_of_le (hlt1 m rfl) hge)
            · exact ih2 n hn x hxt hcx
          · intro n hn
            rw [hgo] at hn
            rcases ih3 n hn with hacc | ⟨l1, l2, ht, hc1, hd1, hlt1, hfst1⟩
            · exact Or.inl hacc
            · refine Or.inr
                ⟨s :: l1, l2, by rw [ht, List.cons_append], hc1, hd1, hlt1, ?_⟩
              intro x hx hcx
              rcases List.mem_cons.mp hx with hxs | hxl
              · rw [hxs]
                exact lt_of_lt_of_le (hlt1 m rfl) hge
              · exact hfst1 x hxl hcx

/-- C7: for every GPS fix and list of stops, `findNearestStop` returns a
stop that minimizes the distance among exactly the stops that carry
(truthy) coordinates — stops without coordinates are skipped and never
matched — with ties broken by first occurrence in the stop order (every
coordinate-carrying stop strictly earlier in the list is strictly
farther), and returns `none` precisely when no stop carries coordinates.
Parametric in the distance function `d` (`calculateDistance`). -/
theorem findNearestStop_minimizes (d : ℚ → ℚ → ℚ → ℚ → ℚ) (lat lon : ℚ)
    (stops : List Stop) :
    (findNearestStop d lat lon stops = none ↔
      ∀ s ∈ stops, hasCoords s = false)
  ∧ (∀ n, findNearestStop d lat lon stops = some n →
      ∃ l1 l2, stops = l1 ++ n.stop :: l2 ∧ hasCoords n.stop = true
        ∧ n.distance_meters = stopDist d lat lon n.stop
        ∧ (∀ s ∈ stops, hasCoords s = true →
            n.distance_meters ≤ stopDist d lat lon s)
        ∧ (∀ s ∈ l1, hasCoords s = true →
            n.distance_meters < stopDist d lat lon s)) := by
  obtain ⟨h1, h2, h3⟩ := findNearestGo_spec d lat lon stops none
  constructor
  · rw [findNearestStop, h1]
    simp
  · intro n hn
    rcases h3 n hn with h | ⟨l1, l2, ht, hco, hdist, _, hfirst⟩
    · cases h
    · exact ⟨l1, l2, ht, hco, hdist, h2 n hn, hfirst⟩

/-- Witness for the nearest-stop specification: on the stop list
`[Gamma (no coords), Alpha, Beta]` with a distance function returning the
stop's latitude, the minimizer decomposition holds for `Alpha` at
distance 1. -/
theorem findNearestStop_minimizes_witness :
    ∃ l1 l2, ([demoStopC, demoStopA, demoStopB] : List Stop) =
        l1 ++ demoStopA :: l2
      ∧ hasCoords demoStopA = true
      ∧ (1 : ℚ) = stopDist (fun _ _ la _ => la) 0 0 demoStopA
      ∧ (∀ s ∈ ([demoStopC, demoStopA, demoStopB] : List Stop),
          hasCoords s = true → (1 : ℚ) ≤ stopDist (fun _ _ la _ => la) 0 0 s)
      ∧ (∀ s ∈ l1, hasCoords s = true →
          (1 : ℚ) < stopDist (fun _ _ la _ => la) 0 0 s) := by
  exact (findNearestStop_minimizes (fun _ _ la _ => la) 0 0
    [demoStopC, demoStopA, demoStopB]).2 ⟨demoStopA, 1⟩ (by decide)

/-- C8 counterexample: when the origin id does not occur in the stop list,
`findIndex` yields `-1` and the index filter keeps every stop, so the
result is the full list, not the empty sequence the claim states. -/
theorem downstream_origin_missing_counterexample :
    ([demoStopA, demoStopB].findIdx? (byStopId "zzz") = none)
  ∧ downstreamDestinations [demoStopA, demoStopB] "zzz" =
      [("s1", "Alpha"), ("s2", "Beta")]
  ∧ downstreamDestinations [demoStopA, demoStopB] "zzz" ≠ [] := by
  refine ⟨by decide, by decide, by decide⟩

/-- C8 (amended): `downstreamDestinations` returns exactly the stops
strictly after the origin's first position in the route sequence, in
order; when the origin is not found it returns the full list (projected
to id/name), not the empty sequence. -/
theorem downstream_strictly_after (stops : List Stop) (origin : String) :
    (stops.findIdx? (byStopId origin) = none →
      downstreamDestinations stops origin = stops.map stopView)
  ∧ (∀ i : ℕ, stops.findIdx? (byStopId origin) = some i →
      downstreamDestinations stops origin =
        (stops.drop (i + 1)).map stopView) := by
  constructor
  · intro h
    simp only [downstreamDestinations, h, filterIdxGt_eq_drop]
    norm_num
  · intro i h
    simp only [downstreamDestinations, h, filterIdxGt_eq_drop]
    have h2 : ((i : Int) + 1 - 0).toNat = i + 1 := by omega
    rw [h2]

/-- Witness for the downstream specification: origin `s2` sits at index 1
of the three-stop route, so the downstream list is the drop after it. -/
theorem downstream_strictly_after_witness :
    downstreamDestinations [demoStopA, demoStopB, demoStopC] "s2" =
      (([demoStopA, demoStopB, demoStopC] : List Stop).drop 2).map stopView := by
  exact (downstream_strictly_after [demoStopA, demoStopB, demoStopC] "s2").2
    1 (by decide)

/-- C1: the commit step is not all-or-nothing.  The code inserts the
`transactions` row and then issues the `users` balance update without
inspecting its result; when that update fails, the call still returns the
201 success response, the `success` Transaction row (amount 50,
reference `R1`) is persisted, and the account balance is still 100 —
the outcome the claim says cannot exist. -/
theorem commit_not_atomic_on_failed_balance_update :
    (processPayment (demoCfg 0)
        { txnInsertOk := true, balanceUpdateOk := false, freshTxnId := "t1" }
        demoDB demoReq).1 =
      .success (.receipt (mkReceipt demoReq demoDevice demoUser "t1"))
        "Payment successful" 201
  ∧ (processPayment (demoCfg 0)
        { txnInsertOk := true, balanceUpdateOk := false, freshTxnId := "t1" }
        demoDB demoReq).2.transactions =
      [mkTxn demoReq demoDevice demoUser "t1" (some 0)]
  ∧ (mkTxn demoReq demoDevice demoUser "t1" (some 0)).status = "success"
  ∧ (mkTxn demoReq demoDevice demoUser "t1" (some 0)).amount = 50
  ∧ (mkTxn demoReq demoDevice demoUser "t1" (some 0)).reference_code = "R1"
  ∧ (processPayment (demoCfg 0)
        { txnInsertOk := true, balanceUpdateOk := false, freshTxnId := "t1" }
        demoDB demoReq).2.users.lookup "u1" = some demoUser
  ∧ demoUser.balance = 100 := by
  have h := processPayment_commit (demoCfg 0)
    { txnInsertOk := true, balanceUpdateOk := false, freshTxnId := "t1" }
    demoDB demoReq demoUser demoDevice (some 0)
    (by decide) (by decide) (by decide) (by decide) (by decide) (by decide)
    (by decide) (by decide)
  refine ⟨?_, ?_, rfl, rfl, rfl, ?_, rfl⟩
  · rw [h]
  · rw [h, commitDB_transactions]
    rfl
  · rw [h, commitDB_users]
    rfl

/-- C2 counterexample: running the same request twice (reference `R1`)
yields two success responses that are not structurally identical — the
first is the full 201 receipt, the second is the
`{transaction_id, status, amount}` projection with message
`Transaction already processed` and status 200. -/
theorem charge_replay_responses_differ :
    ((processPayment (demoCfg 0) demoOracle demoDB demoReq).1 ≠
      (processPayment (demoCfg 0) demoOracle
        (processPayment (demoCfg 0) demoOracle demoDB demoReq).2 demoReq).1)
  ∧ (processPayment (demoCfg 0) demoOracle demoDB demoReq).1 =
      .success (.receipt (mkReceipt demoReq demoDevice demoUser "t1"))
        "Payment successful" 201
  ∧ (processPayment (demoCfg 0) demoOracle
        (processPayment (demoCfg 0) demoOracle demoDB demoReq).2 demoReq).1 =
      .success (.existing ⟨"t1", "success", 50⟩)
        "Transaction already processed" 200 := by
  have h1 := processPayment_commit (demoCfg 0) demoOracle demoDB demoReq
    demoUser demoDevice (some 0) (by decide) (by decide) (by decide)
    (by decide) (by decide) (by decide) (by decide) (by decide)
  have hfind : (commitDB demoDB demoReq demoUser demoDevice demoOracle
      (some 0)).transactions.find? (byReference demoReq.idempotency_key) =
      some (mkTxn demoReq demoDevice demoUser demoOracle.freshTxnId (some 0)) := by
    rw [commitDB_transactions, find?_append_of_none _ _ _ (by decide)]
    simp [byReference, mkTxn]
  have h2 := processPayment_replay (demoCfg 0) demoOracle
    (commitDB demoDB demoReq demoUser demoDevice demoOracle (some 0)) demoReq
    (mkTxn demoReq demoDevice demoUser demoOracle.freshTxnId (some 0)) hfind
  have key1 : (processPayment (demoCfg 0) demoOracle demoDB demoReq).1 =
      .success (.receipt (mkReceipt demoReq demoDevice demoUser
        demoOracle.freshTxnId)) "Payment successful" 201 := by
    rw [h1]
  have key2 : (processPayment (demoCfg 0) demoOracle demoDB demoReq).2 =
      commitDB demoDB demoReq demoUser demoDevice demoOracle (some 0) := by
    rw [h1]
  have key3 : (processPayment (demoCfg 0) demoOracle
      (processPayment (demoCfg 0) demoOracle demoDB demoReq).2 demoReq).1 =
      .success (.existing ⟨"t1", "success", (50 : ℚ)⟩)
        "Transaction already processed" 200 := by
    rw [key2, h2]
    rfl
  refine ⟨?_, key1, key3⟩
  rw [key1, key3]
  decide

/-- C2 (amended): a repeated call with the same reference code finds the
existing Transaction and returns its `{transaction_id, status, amount}`
projection with no further side effects — the store after the second call
is exactly the store after the first, so there is exactly one Transaction
row and one balance decrement — but the second response is that
projection (HTTP 200), not a structural copy of the first 201 receipt. -/
theorem charge_replay_no_second_debit (cfg : Config) (ora ora2 : StoreOracle)
    (db : DB) (q : PaymentRequest) (u : UserRec) (dev : DeviceRec)
    (nd : Option ℚ)
    (href : db.transactions.find? (byReference q.idempotency_key) = none)
    (hu : db.users.lookup q.user_id = some u)
    (hact : u.status = "active")
    (hpin : cfg.verifyPin q.pin u.pin_hash = true)
    (hbal : ¬ u.balance < q.amount)
    (hdev : db.devices.lookup q.device_id = some dev)
    (hfraud : gpsFraudCheck cfg db q = .passed nd)
    (hins : ora.txnInsertOk = true) :
    processPayment cfg ora db q =
      (.success (.receipt (mkReceipt q dev u ora.freshTxnId))
        "Payment successful" 201, commitDB db q u dev ora nd)
  ∧ processPayment cfg ora2 (commitDB db q u dev ora nd) q =
      (.success (.existing ⟨ora.freshTxnId, "success", q.amount⟩)
        "Transaction already processed" 200, commitDB db q u dev ora nd) := by
  have h1 := processPayment_commit cfg ora db q u dev nd href hu hact hpin
    hbal hdev hfraud hins
  refine ⟨h1, ?_⟩
  have hfind : (commitDB db q u dev ora nd).transactions.find?
      (byReference q.idempotency_key) = some (mkTxn q dev u ora.freshTxnId nd) := by
    rw [commitDB_transactions, find?_append_of_none _ _ _ href]
    simp [byReference, mkTxn]
  exact processPayment_replay cfg ora2 (commitDB db q u dev ora nd) q
    (mkTxn q dev u ora.freshTxnId nd) hfind

/-- Witness for the replay theorem at the demo fixtures. -/
theorem charge_replay_no_second_debit_witness :
    processPayment (demoCfg 0) demoOracle demoDB demoReq =
      (.success (.receipt (mkReceipt demoReq demoDevice demoUser "t1"))
        "Payment successful" 201,
        commitDB demoDB demoReq demoUser demoDevice demoOracle (some 0))
  ∧ processPayment (demoCfg 0) demoOracle
      (commitDB demoDB demoReq demoUser demoDevice demoOracle (some 0)) demoReq =
      (.success (.existing ⟨"t1", "success", 50⟩)
        "Transaction already processed" 200,
        commitDB demoDB demoReq demoUser demoDevice demoOracle (some 0)) := by
  exact charge_replay_no_second_debit (demoCfg 0) demoOracle demoOracle demoDB
    demoReq demoUser demoDevice (some 0) (by decide) (by decide) (by decide)
    (by decide) (by decide) (by decide) (by decide) (by decide)

/-- C9: every transaction persisted through `processPayment` carries
`auto_detected_origin = true` — the flag is the hardcoded
`let auto_detected_origin = true` of line 277 and depends on no input of
the request, even when the origin stop was supplied manually (the same
row still records the claimed `origin_stop`). -/
theorem auto_detected_origin_unconditionally_true (cfg : Config)
    (ora : StoreOracle) (db : DB) (q : PaymentRequest) (u : UserRec)
    (dev : DeviceRec) (nd : Option ℚ)
    (href : db.transactions.find? (byReference q.idempotency_key) = none)
    (hu : db.users.lookup q.user_id = some u)
    (hact : u.status = "active")
    (hpin : cfg.verifyPin q.pin u.pin_hash = true)
    (hbal : ¬ u.balance < q.amount)
    (hdev : db.devices.lookup q.device_id = some dev)
    (hfraud : gpsFraudCheck cfg db q = .passed nd)
    (hins : ora.txnInsertOk = true) :
    ∃ t : Txn,
      (processPayment cfg ora db q).2.transactions = db.transactions ++ [t]
        ∧ t.auto_detected_origin = true
        ∧ t.origin_stop =
            (if truthyS q.origin_stop then q.origin_stop else none) := by
  refine ⟨mkTxn q dev u ora.freshTxnId nd, ?_, rfl, rfl⟩
  rw [processPayment_commit cfg ora db q u dev nd href hu hact hpin hbal hdev
    hfraud hins]
  exact commitDB_transactions db q u dev ora nd

/-- Witness: the demo request claims origin `s1` manually, yet the stored
row has `auto_detected_origin = true`. -/
theorem auto_detected_origin_witness :
    ∃ t : Txn,
      (processPayment (demoCfg 0) demoOracle demoDB demoReq).2.transactions =
        demoDB.transactions ++ [t]
        ∧ t.auto_detected_origin = true
        ∧ t.origin_stop =
            (if truthyS demoReq.origin_stop then demoReq.origin_stop else none) := by
  exact auto_detected_origin_unconditionally_true (demoCfg 0) demoOracle demoDB
    demoReq demoUser demoDevice (some 0) (by decide) (by decide) (by decide)
    (by decide) (by decide) (by decide) (by decide) (by decide)

/-- Round to nearest integer, ties to the even integer (the rounding
direction IEEE-754 prescribes for every binary64 operation). -/
def rne (m : ℚ) : ℤ :=
  if m - (⌊m⌋ : ℚ) < 1 / 2 then ⌊m⌋
  else if 1 / 2 < m - (⌊m⌋ : ℚ) then ⌊m⌋ + 1
  else if 2 ∣ ⌊m⌋ then ⌊m⌋ else ⌊m⌋ + 1

/-- Rounding of a rational to IEEE-754 binary64: round to nearest, ties
to even, 53-bit significand — the number semantics JavaScript mandates
for the arithmetic of paymentController.js lines 273-274.  Subnormal
underflow and overflow lie far outside every value in this development
and are not modelled. -/
def fl64 (x : ℚ) : ℚ :=
  if x = 0 then 0
  else (rne (x / 2 ^ (Int.log 2 |x| - 52)) : ℚ) * 2 ^ (Int.log 2 |x| - 52)

/-- Line 273 under binary64: `merchant_commission = amount *
commission_rate`, the product rounded to binary64. -/
def flCommission (amount rate : ℚ) : ℚ :=
  fl64 (amount * rate)

/-- Line 274 under binary64: `net_amount = amount - merchant_commission`,
the difference rounded to binary64. -/
def flNetAmount (amount rate : ℚ) : ℚ :=
  fl64 (amount - flCommission amount rate)

/-- Evaluation of `rne` when the fractional part exceeds one half. -/
theorem rne_frac_gt (m : ℚ) (q : ℤ) (h1 : 1 / 2 < m - (q : ℚ))
    (h2 : m < (q : ℚ) + 1) : rne m = q + 1 := by
  have hq : ⌊m⌋ = q := by
    rw [Int.floor_eq_iff]
    constructor
    · linarith
    · linarith
  simp only [rne, hq]
  rw [if_neg (by linarith), if_pos h1]

/-- Evaluation of `rne` at an exact half with an odd floor: the tie goes
up to the even integer. -/
theorem rne_tie_odd (m : ℚ) (q : ℤ) (h1 : m - (q : ℚ) = 1 / 2)
    (h2 : ¬ 2 ∣ q) : rne m = q + 1 := by
  have hq : ⌊m⌋ = q := by
    rw [Int.floor_eq_iff]
    constructor
    · linarith
    · linarith
  simp only [rne, hq, h1]
  norm_num [h2]

/-- Evaluation of `fl64` on a positive rational from its binade bounds
and the rounded significand. -/
theorem fl64_eq (x : ℚ) (e r : ℤ) (hx : 0 < x)
    (h1 : (2 : ℚ) ^ e ≤ x) (h2 : x < (2 : ℚ) ^ (e + 1))
    (hr : rne (x / 2 ^ (e - 52)) = r) :
    fl64 x = (r : ℚ) * 2 ^ (e - 52) := by
  have hlog : Int.log 2 x = e := by
    have ha : e ≤ Int.log 2 x :=
      (Int.zpow_le_iff_le_log one_lt_two hx).mp (by simpa using h1)
    have hb : Int.log 2 x < e + 1 :=
      (Int.lt_zpow_iff_log_lt one_lt_two hx).mp (by simpa using h2)
    omega
  simp only [fl64, if_neg (ne_of_gt hx), abs_of_pos hx, hlog, hr]

/-- The binary64 value `parseFloat` produces for the rate 0.1: the
nearest double to 1/10. -/
theorem fl64_tenth : fl64 (1 / 10) = 7205759403792794 / 2 ^ 56 := by
  have hr : rne ((1 / 10 : ℚ) / 2 ^ ((-4 : ℤ) - 52)) = 7205759403792794 := by
    have hm : (1 / 10 : ℚ) / 2 ^ ((-4 : ℤ) - 52) = 36028797018963968 / 5 := by
      norm_num
    rw [hm]
    have h := rne_frac_gt (36028797018963968 / 5) 7205759403792793
      (by norm_num) (by norm_num)
    simpa using h
  have h := fl64_eq (1 / 10) (-4) 7205759403792794 (by norm_num) (by norm_num)
    (by norm_num) hr
  rw [h]
  norm_num

/-- C6: the conservation claim fails on the code.  JavaScript evaluates
`amount * commission_rate` and `amount - merchant_commission`
(paymentController.js lines 273-274) in IEEE-754 binary64 with no rounding
step.  At amount 3 and rate 0.1 (`parseFloat` yields the double nearest
1/10), the stored commission is 5404319552844596/2^54
(0.30000000000000004) and the stored net is 6079859496950170/2^51 (the
double nearest 2.7, not 2.7): their exact sum is 3 + 2^-52, not 3, so the
stored pair does not reproduce the amount exactly and the rounding drift
the claim denies is real. -/
theorem commission_drift_on_binary64 :
    fl64 (1 / 10) = 7205759403792794 / 2 ^ 56
  ∧ flCommission 3 (fl64 (1 / 10)) = 5404319552844596 / 2 ^ 54
  ∧ flNetAmount 3 (fl64 (1 / 10)) = 6079859496950170 / 2 ^ 51
  ∧ flCommission 3 (fl64 (1 / 10)) + flNetAmount 3 (fl64 (1 / 10)) ≠ 3 := by
  have h0 := fl64_tenth
  have h1 : flCommission 3 (fl64 (1 / 10)) = 5404319552844596 / 2 ^ 54 := by
    rw [flCommission, h0]
    have e1 : (3 : ℚ) * (7205759403792794 / 2 ^ 56) =
        21617278211378382 / 2 ^ 56 := by norm_num
    rw [e1]
    have hr : rne ((21617278211378382 / 2 ^ 56 : ℚ) / 2 ^ ((-2 : ℤ) - 52)) =
        5404319552844596 := by
      have hm : (21617278211378382 / 2 ^ 56 : ℚ) / 2 ^ ((-2 : ℤ) - 52) =
          10808639105689191 / 2 := by norm_num
      rw [hm]
      have h := rne_tie_odd (10808639105689191 / 2) 5404319552844595
        (by norm_num) (by norm_num)
      simpa using h
    have h := fl64_eq _ (-2) 5404319552844596 (by norm_num) (by norm_num)
      (by norm_num) hr
    rw [h]
    norm_num
  have h2 : flNetAmount 3 (fl64 (1 / 10)) = 6079859496950170 / 2 ^ 51 := by
    rw [flNetAmount, h1]
    have e2 : (3 : ℚ) - 5404319552844596 / 2 ^ 54 =
        48638875975601356 / 2 ^ 54 := by norm_num
    rw [e2]
    have hr : rne ((48638875975601356 / 2 ^ 54 : ℚ) / 2 ^ ((1 : ℤ) - 52)) =
        6079859496950170 := by
      have hm : (48638875975601356 / 2 ^ 54 : ℚ) / 2 ^ ((1 : ℤ) - 52) =
          12159718993900339 / 2 := by norm_num
      rw [hm]
      have h := rne_tie_odd (12159718993900339 / 2) 6079859496950169
        (by norm_num) (by norm_num)
      simpa using h
    have h := fl64_eq _ 1 6079859496950170 (by norm_num) (by norm_num)
      (by norm_num) hr
    rw [h]
    norm_num
  refine ⟨h0, h1, h2, ?_⟩
  rw [h1, h2]
  norm_num

/-- C3: balance invariant.  For every sequence of charge attempts from a
non-negative balance, the final balance is the initial balance minus the
sum of the successful amounts and never goes negative; a charge above the
balance fails (`ledgerCharge` refuses it, and `processPayment` answers
`INSUFFICIENT_BALANCE` leaving the store unchanged); a charge equal to
the balance succeeds and leaves balance exactly 0. -/
theorem balance_invariant (b : ℚ) (hb : 0 ≤ b) (amts : List ℚ) :
    ((chargeSeq b amts).1 = b - (chargeSeq b amts).2
      ∧ 0 ≤ (chargeSeq b amts).1)
  ∧ (∀ a : ℚ, b < a → ledgerCharge b a = none)
  ∧ ledgerCharge b b = some 0
  ∧ (∀ (cfg : Config) (ora : StoreOracle) (db : DB) (q : PaymentRequest)
        (u : UserRec),
      db.transactions.find? (byReference q.idempotency_key) = none →
      db.users.lookup q.user_id = some u →
      u.status = "active" →
      cfg.verifyPin q.pin u.pin_hash = true →
      u.balance < q.amount →
      processPayment cfg ora db q =
        (.error "Insufficient balance" "INSUFFICIENT_BALANCE" 400, db))
  ∧ (∀ (cfg : Config) (ora : StoreOracle) (db : DB) (q : PaymentRequest)
        (u : UserRec) (dev : DeviceRec) (nd : Option ℚ),
      db.transactions.find? (byReference q.idempotency_key) = none →
      db.users.lookup q.user_id = some u →
      u.status = "active" →
      cfg.verifyPin q.pin u.pin_hash = true →
      u.balance = q.amount →
      db.devices.lookup q.device_id = some dev →
      gpsFraudCheck cfg db q = .passed nd →
      ora.txnInsertOk = true →
      ora.balanceUpdateOk = true →
      ∃ t : Txn,
        (processPayment cfg ora db q).2.transactions = db.transactions ++ [t]
          ∧ t.user_balance_after = 0
          ∧ (processPayment cfg ora db q).2.users.lookup q.user_id =
              some { u with balance := 0 }) := by
  refine ⟨chargeSeq_spec amts b hb, ?_, ?_, ?_, ?_⟩
  · intro a ha
    simp [ledgerCharge, ha]
  · simp [ledgerCharge]
  · intro cfg ora db q u h1 h2 h3 h4 h5
    exact processPayment_insufficient cfg ora db q u h1 h2 h3 h4 h5
  · intro cfg ora db q u dev nd h1 h2 h3 h4 h5 h6 h7 h8 h9
    have hbal : ¬ u.balance < q.amount := by
      rw [h5]
      exact lt_irrefl _
    have hc := processPayment_commit cfg ora db q u dev nd h1 h2 h3 h4 hbal
      h6 h7 h8
    refine ⟨mkTxn q dev u ora.freshTxnId nd, ?_, ?_, ?_⟩
    · rw [hc]
      exact commitDB_transactions db q u dev ora nd
    · show u.balance - q.amount = 0
      rw [h5, sub_self]
    · rw [hc]
      rw [show (processPayment cfg ora db q,
        commitDB db q u dev ora nd).2 = commitDB db q u dev ora nd from rfl]
      rw [commitDB_users, h9, if_pos rfl, lookup_setBalance, h2, h5]
      simp [sub_self]

/-- Witness for the balance invariant: balance 100 against charges
`[50, 200, 50]` (the 200 fails, the two 50s succeed). -/
theorem balance_invariant_witness :
    (0 : ℚ) ≤ 100
  ∧ (chargeSeq 100 [50, 200, 50]).1 = 100 - (chargeSeq 100 [50, 200, 50]).2
  ∧ 0 ≤ (chargeSeq 100 [50, 200, 50]).1 := by
  refine ⟨by norm_num, ?_⟩
  exact (balance_invariant 100 (by norm_num) [50, 200, 50]).1

/-- C4: the fraud decision is a strict threshold on the computed distance:
at exactly the configured maximum the payment is accepted (201 success,
no fraud alert, the distance carried on the stored row for audit), one
meter beyond it the payment is rejected with `ORIGIN_MISMATCH` and
exactly one FraudAlert is appended. -/
theorem fraud_threshold_boundary (cfg : Config) (ora : StoreOracle) (db : DB)
    (q : PaymentRequest) (u : UserRec) (dev : DeviceRec) (route : RouteRec)
    (stop : Stop)
    (href : db.transactions.find? (byReference q.idempotency_key) = none)
    (hu : db.users.lookup q.user_id = some u)
    (hact : u.status = "active")
    (hpin : cfg.verifyPin q.pin u.pin_hash = true)
    (hbal : ¬ u.balance < q.amount)
    (hdev : db.devices.lookup q.device_id = some dev)
    (hguard : (truthyS q.route_id && truthyS q.origin_stop &&
      truthyQ q.gps_latitude && truthyQ q.gps_longitude) = true)
    (hroute : db.routes.lookup (q.route_id.getD "") = some route)
    (hstop : route.stops.find? (byStopId (q.origin_stop.getD "")) = some stop)
    (hcoords : (truthyQ stop.latitude && truthyQ stop.longitude) = true)
    (hins : ora.txnInsertOk = true) :
    (cfg.dist (q.gps_latitude.getD 0) (q.gps_longitude.getD 0)
        (stop.latitude.getD 0) (stop.longitude.getD 0) =
          cfg.maxDistanceMeters →
      (processPayment cfg ora db q).1 =
        .success (.receipt (mkReceipt q dev u ora.freshTxnId))
          "Payment successful" 201
      ∧ (processPayment cfg ora db q).2.fraud_alerts = db.fraud_alerts
      ∧ (processPayment cfg ora db q).2.transactions =
          db.transactions ++
            [mkTxn q dev u ora.freshTxnId (some cfg.maxDistanceMeters)])
  ∧ (cfg.dist (q.gps_latitude.getD 0) (q.gps_longitude.getD 0)
        (stop.latitude.getD 0) (stop.longitude.getD 0) =
          cfg.maxDistanceMeters + 1 →
      processPayment cfg ora db q =
        (.error "Origin location mismatch detected. Please verify your boarding point."
          "ORIGIN_MISMATCH" 400,
          { db with fraud_alerts := db.fraud_alerts ++
              [{ user_id := q.user_id
                 transaction_id := none
                 alert_type := "suspicious_origin"
                 risk_score := 75
                 alert_level := "high"
                 details_gps_latitude := q.gps_latitude.getD 0
                 details_gps_longitude := q.gps_longitude.getD 0
                 details_selected_origin := q.origin_stop.getD ""
                 details_distance_meters := cfg.maxDistanceMeters + 1 }] })) := by
  constructor
  · intro hd
    have hfraud : gpsFraudCheck cfg db q =
        .passed (some cfg.maxDistanceMeters) := by
      rw [gpsFraudCheck_eval cfg db q route stop hguard hroute hstop hcoords,
        hd, if_neg (lt_irrefl cfg.maxDistanceMeters)]
    have hc := processPayment_commit cfg ora db q u dev
      (some cfg.maxDistanceMeters) href hu hact hpin hbal hdev hfraud hins
    rw [hc]
    exact ⟨rfl, commitDB_fraud_alerts db q u dev ora _,
      commitDB_transactions db q u dev ora _⟩
  · intro hd
    have hfraud : gpsFraudCheck cfg db q = .rejected
        { user_id := q.user_id
          transaction_id := none
          alert_type := "suspicious_origin"
          risk_score := 75
          alert_level := "high"
          details_gps_latitude := q.gps_latitude.getD 0
          details_gps_longitude := q.gps_longitude.getD 0
          details_selected_origin := q.origin_stop.getD ""
          details_distance_meters := cfg.maxDistanceMeters + 1 } := by
      rw [gpsFraudCheck_eval cfg db q route stop hguard hroute hstop hcoords,
        hd, if_pos (lt_add_one cfg.maxDistanceMeters)]
    exact processPayment_rejected cfg ora db q u dev _ href hu hact hpin hbal
      hdev hfraud

/-- Witness for the threshold boundary: at distance exactly 500 the demo
payment is accepted with no alert. -/
theorem fraud_threshold_boundary_witness :
    (processPayment (demoCfg 500) demoOracle demoDB demoReq).1 =
      .success (.receipt (mkReceipt demoReq demoDevice demoUser "t1"))
        "Payment successful" 201
  ∧ (processPayment (demoCfg 500) demoOracle demoDB demoReq).2.fraud_alerts =
      demoDB.fraud_alerts := by
  have h := (fraud_threshold_boundary (demoCfg 500) demoOracle demoDB demoReq
    demoUser demoDevice demoRoute demoStopA (by decide) (by decide) (by decide)
    (by decide) (by decide) (by decide) (by decide) (by decide) (by decide)
    (by decide) (by decide)).1 (by decide)
  exact ⟨h.1, h.2.1⟩

/-- C5: a payment rejected for origin mismatch answers `ORIGIN_MISMATCH`
and appends exactly one FraudAlert with `alert_type = suspicious_origin`,
`risk_score = 75`, `alert_level = high` and the claimed origin, fix and
distance as details; the transaction table and the accounts are
untouched (no row is created, no debit happens). -/
theorem origin_mismatch_effects (cfg : Config) (ora : StoreOracle) (db : DB)
    (q : PaymentRequest) (u : UserRec) (dev : DeviceRec) (route : RouteRec)
    (stop : Stop)
    (href : db.transactions.find? (byReference q.idempotency_key) = none)
    (hu : db.users.lookup q.user_id = some u)
    (hact : u.status = "active")
    (hpin : cfg.verifyPin q.pin u.pin_hash = true)
    (hbal : ¬ u.balance < q.amount)
    (hdev : db.devices.lookup q.device_id = some dev)
    (hguard : (truthyS q.route_id && truthyS q.origin_stop &&
      truthyQ q.gps_latitude && truthyQ q.gps_longitude) = true)
    (hroute : db.routes.lookup (q.route_id.getD "") = some route)
    (hstop : route.stops.find? (byStopId (q.origin_stop.getD "")) = some stop)
    (hcoords : (truthyQ stop.latitude && truthyQ stop.longitude) = true)
    (hdist : cfg.dist (q.gps_latitude.getD 0) (q.gps_longitude.getD 0)
        (stop.latitude.getD 0) (stop.longitude.getD 0) >
          cfg.maxDistanceMeters) :
    processPayment cfg ora db q =
      (.error "Origin location mismatch detected. Please verify your boarding point."
        "ORIGIN_MISMATCH" 400,
        { db with fraud_alerts := db.fraud_alerts ++
            [{ user_id := q.user_id
               transaction_id := none
               alert_type := "suspicious_origin"
               risk_score := 75
               alert_level := "high"
               details_gps_latitude := q.gps_latitude.getD 0
               details_gps_longitude := q.gps_longitude.getD 0
               details_selected_origin := q.origin_stop.getD ""
               details_distance_meters := cfg.dist (q.gps_latitude.getD 0)
                 (q.gps_longitude.getD 0) (stop.latitude.getD 0)
                 (stop.longitude.getD 0) }] })
  ∧ (processPayment cfg ora db q).2.transactions = db.transactions
  ∧ (processPayment cfg ora db q).2.users = db.users
  ∧ (processPayment cfg ora db q).2.fraud_alerts.length =
      db.fraud_alerts.length + 1 := by
  have hfraud : gpsFraudCheck cfg db q = .rejected
      { user_id := q.user_id
        transaction_id := none
        alert_type := "suspicious_origin"
        risk_score := 75
        alert_level := "high"
        details_gps_latitude := q.gps_latitude.getD 0
        details_gps_longitude := q.gps_longitude.getD 0
        details_selected_origin := q.origin_stop.getD ""
        details_distance_meters := cfg.dist (q.gps_latitude.getD 0)
          (q.gps_longitude.getD 0) (stop.latitude.getD 0)
          (stop.longitude.getD 0) } := by
    rw [gpsFraudCheck_eval cfg db q route stop hguard hroute hstop hcoords,
      if_pos hdist]
  have h := processPayment_rejected cfg ora db q u dev _ href hu hact hpin
    hbal hdev hfraud
  refine ⟨h, ?_, ?_, ?_⟩ <;> rw [h] <;> simp

/-- Witness for the rejection effects: the spec scenario, a fix 600 m from
the claimed stop with threshold 500 m. -/
theorem origin_mismatch_effects_witness :
    (processPayment (demoCfg 600) demoOracle demoDB demoReq).1 =
      .error "Origin location mismatch detected. Please verify your boarding point."
        "ORIGIN_MISMATCH" 400
  ∧ (processPayment (demoCfg 600) demoOracle demoDB demoReq).2.users =
      demoDB.users
  ∧ (processPayment (demoCfg 600) demoOracle demoDB demoReq).2.fraud_alerts.length =
      demoDB.fraud_alerts.length + 1 := by
  obtain ⟨h1, _, h3, h4⟩ := origin_mismatch_effects (demoCfg 600) demoOracle
    demoDB demoReq demoUser demoDevice demoRoute demoStopA (by decide)
    (by decide) (by decide) (by decide) (by decide) (by decide) (by decide)
    (by decide) (by decide) (by decide) (by decide)
  exact ⟨by rw [h1], h3, h4⟩

/-- C10: the GPS fraud evaluation is skipped entirely — no distance, no
possible FraudAlert, payment accepted with
`nearest_stop_distance_meters = null` — whenever any of `route_id`,
`origin_stop`, `gps_latitude`, `gps_longitude` is falsy (absent or 0), and
likewise whenever the claimed stop's stored latitude or longitude is falsy. -/
theorem gps_fraud_skipped_on_falsy (cfg : Config) (ora : StoreOracle)
    (db : DB) (q : PaymentRequest) (u : UserRec) (dev : DeviceRec)
    (href : db.transactions.find? (byReference q.idempotency_key) = none)
    (hu : db.users.lookup q.user_id = some u)
    (hact : u.status = "active")
    (hpin : cfg.verifyPin q.pin u.pin_hash = true)
    (hbal : ¬ u.balance < q.amount)
    (hdev : db.devices.lookup q.device_id = some dev)
    (hins : ora.txnInsertOk = true) :
    ((truthyS q.route_id && truthyS q.origin_stop &&
        truthyQ q.gps_latitude && truthyQ q.gps_longitude) = false →
      gpsFraudCheck cfg db q = .passed none
      ∧ (processPayment cfg ora db q).1 =
          .success (.receipt (mkReceipt q dev u ora.freshTxnId))
            "Payment successful" 201
      ∧ (processPayment cfg ora db q).2.transactions =
          db.transactions ++ [mkTxn q dev u ora.freshTxnId none]
      ∧ (mkTxn q dev u ora.freshTxnId none).nearest_stop_distance_meters = none
      ∧ (processPayment cfg ora db q).2.fraud_alerts = db.fraud_alerts)
  ∧ (∀ (route : RouteRec) (stop : Stop),
      (truthyS q.route_id && truthyS q.origin_stop &&
        truthyQ q.gps_latitude && truthyQ q.gps_longitude) = true →
      db.routes.lookup (q.route_id.getD "") = some route →
      route.stops.find? (byStopId (q.origin_stop.getD "")) = some stop →
      (truthyQ stop.latitude && truthyQ stop.longitude) = false →
      gpsFraudCheck cfg db q = .passed none
      ∧ (processPayment cfg ora db q).1 =
          .success (.receipt (mkReceipt q dev u ora.freshTxnId))
            "Payment successful" 201
      ∧ (processPayment cfg ora db q).2.transactions =
          db.transactions ++ [mkTxn q dev u ora.freshTxnId none]
      ∧ (mkTxn q dev u ora.freshTxnId none).nearest_stop_distance_meters = none
      ∧ (processPayment cfg ora db q).2.fraud_alerts = db.fraud_alerts) := by
  constructor
  · intro hguard
    have hfraud := gpsFraudCheck_skipped_guard cfg db q hguard
    have hc := processPayment_commit cfg ora db q u dev none href hu hact
      hpin hbal hdev hfraud hins
    rw [hc]
    exact ⟨hfraud, rfl, commitDB_transactions db q u dev ora none, rfl,
      commitDB_fraud_alerts db q u dev ora none⟩
  · intro route stop hguard hroute hstop hcoords
    have hfraud := gpsFraudCheck_skipped_stop cfg db q route stop hguard
      hroute hstop hcoords
    have hc := processPayment_commit cfg ora db q u dev none href hu hact
      hpin hbal hdev hfraud hins
    rw [hc]
    exact ⟨hfraud, rfl, commitDB_transactions db q u dev ora none, rfl,
      commitDB_fraud_alerts db q u dev ora none⟩

/-- Witness: the demo request with no route/origin/GPS data skips the
fraud block and commits with a null audit distance and no alert. -/
theorem gps_fraud_skipped_witness :
    gpsFraudCheck (demoCfg 0) demoDB demoReqNoGps = .passed none
  ∧ (mkTxn demoReqNoGps demoDevice demoUser "t1" none).nearest_stop_distance_meters =
      none
  ∧ (processPayment (demoCfg 0) demoOracle demoDB demoReqNoGps).2.fraud_alerts =
      demoDB.fraud_alerts := by
  have h := (gps_fraud_skipped_on_falsy (demoCfg 0) demoOracle demoDB
    demoReqNoGps demoUser demoDevice (by decide) (by decide) (by decide)
    (by decide) (by decide) (by decide) (by decide)).1 (by decide)
  exact ⟨h.1, h.2.2.2.1, h.2.2.2.2⟩

end EmSec
